import Mathlib

/-!
Shallow embedding of the Kairo conversational registration assistant
(its session-matching / availability engine and conversation state machine).

The repository ships several concatenated variants of the
`kai-conversation` edge function.  We embed, faithfully to the
TypeScript source:

* the Availability Filter `fetchMatchingSessions` (variant 1,
  `supabase/functions/kai-conversation/index.ts` lines 361-536, which is
  textually identical to the variant 3 copy at lines 1708-1883), and the
  reduced variant 2 copy (lines 1173-1288) that has no program-keyword
  predicate and an optional day list;
* the requested-session checks `checkForFullRequestedSession`
  (lines 557-671) and `findRequestedSession` (lines 2043-2170);
* the alternative search `fetchAlternativeSessions` (lines 1905-2011)
  and `fetchBroaderMatches` (lines 2214-2318);
* the variant 2 request handler (lines 963-1064): context merge, age
  validation, recommendation guard and persistence;
* the variant 1 spread-based context merge (lines 44-45);
* the rule-based state machine `determineNextState` of the earlier
  variants (`unnamed/part_002` lines 272-301 and `unnamed/part_003`
  lines 349-383).

Database reads are modelled by passing the reply of the store as an explicit
list argument; JavaScript truthiness (empty string, zero and null are
falsy; any array, even empty, is truthy) is reproduced by the
`truthy*`/`jsOr*` helpers.  The review-rating enrichment
(`fetchSessionRatings`, an external aggregate query over
`session_reviews`) is display-only and outside the model.
-/

/-- One decimal digit to its value, as in the embedded `parseInt` of a
digit group. -/
def digitVal (c : Char) : Nat := c.toNat - '0'.toNat

/-- Value of a list of decimal digits (most significant first). -/
def digitsToNat (l : List Char) : Nat :=
  l.foldl (fun acc c => acc * 10 + digitVal c) 0

/-- Split a character list into its maximal leading run of digits and
the rest (the maximal-munch behaviour of a `\d+` group whose follower
is a non-digit literal). -/
def takeDigits : List Char → (List Char × List Char)
  | [] => ([], [])
  | c :: rest =>
    if c.isDigit then
      let (d, r) := takeDigits rest
      (c :: d, r)
    else ([], c :: rest)

/-- Try to match the regular expression `\[(\d+),(\d+)\)` at the head of
the character list, returning the two parsed groups. -/
def ageRangeAt (l : List Char) : Option (Nat × Nat) :=
  match l with
  | '[' :: rest =>
    let (d1, r1) := takeDigits rest
    if d1.isEmpty then none
    else
      match r1 with
      | ',' :: r2 =>
        let (d2, r3) := takeDigits r2
        if d2.isEmpty then none
        else
          match r3 with
          | ')' :: _ => some (digitsToNat d1, digitsToNat d2)
          | _ => none
      | _ => none
  | _ => none

/-- First match of `\[(\d+),(\d+)\)` anywhere in the list, scanning left
to right, as `String.prototype.match` does without the global flag. -/
def findAgeRange : List Char → Option (Nat × Nat)
  | [] => none
  | c :: rest =>
    match ageRangeAt (c :: rest) with
    | some r => some r
    | none => findAgeRange rest

/-- Embedding of `program.age_range.match(/\[(\d+),(\d+)\)/)` followed by
`parseInt` on both groups: the half-open age interval of the program, if
the string contains one. -/
def parseAgeRange (s : String) : Option (Nat × Nat) := findAgeRange s.data

/-- JavaScript `parseInt` restricted to the strings that occur here:
the maximal leading digit run, `none` standing for `NaN` (every
comparison against `NaN` is false, which the call sites reproduce). -/
def jsParseIntLeading (l : List Char) : Option Nat :=
  let d := l.takeWhile Char.isDigit
  if d.isEmpty then none else some (digitsToNat d)

/-- Embedding of parseInt over the startTime field split at the colon:
the hour field of an `HH:MM` string (the characters before the first
colon, read as a number). -/
def hourOf (startTime : String) : Option Nat :=
  jsParseIntLeading (startTime.data.takeWhile (fun c => !(c = ':')))

/-- ASCII lowercasing, standing for `String.prototype.toLowerCase` on
the program names and keywords that occur here. -/
def jsToLower (s : String) : String := String.mk (s.data.map Char.toLower)

/-- Embedding of `s.includes(t)`: `t` occurs as a contiguous substring
of `s`. -/
def containsSubstr (s t : String) : Bool := decide (t.data <:+: s.data)

/-- Truthiness of an optional string: `null`/absent and `""` are falsy. -/
def truthyStr : Option String → Bool
  | none => false
  | some s => !(s = "")

/-- Truthiness of an optional number: `null`/absent and `0` are falsy. -/
def truthyInt : Option Int → Bool
  | none => false
  | some n => !(n = 0)

/-- Truthiness of an optional array: any array, even empty, is truthy. -/
def truthyList : Option (List Int) → Bool
  | none => false
  | some _ => true

/-- Fallback `x || d` on an optional string value. -/
def jsOrStr (x : Option String) (d : String) : String :=
  match x with
  | some s => if s = "" then d else s
  | none => d

/-- Fallback `x || d` on an optional numeric value. -/
def jsOrInt (x : Option Int) (d : Int) : Int :=
  match x with
  | some n => if n = 0 then d else n
  | none => d

/-- Fallback `x || null` on an optional numeric value (`0` collapses to
`null`). -/
def jsOrNullInt (x : Option Int) : Option Int :=
  match x with
  | some n => if n = 0 then none else some n
  | none => none

/-- Fallback `x || null` on an optional string value (`""` collapses to
`null`). -/
def jsOrNullStr (x : Option String) : Option String :=
  match x with
  | some s => if s = "" then none else some s
  | none => none

/-- The day-name table `[Sunday, ..., Saturday]` indexed by
`day_of_week`; out-of-range indexing yields `undefined`. -/
def dayNames : List String :=
  ["Sunday", "Monday", "Tuesday", "Wednesday", "Thursday", "Friday", "Saturday"]

/-- JavaScript array indexing with a possibly out-of-range number. -/
def jsIndex (l : List String) (i : Int) : Option String :=
  if 0 ≤ i then l.get? i.toNat else none

/-- The joined `programs` row selected with each session. -/
structure ProgramRow where
  id : String
  name : String
  description : Option String
  age_range : Option String
  price_cents : Option Int
  duration_weeks : Option Int
  organization_id : String
  deriving DecidableEq, Repr

/-- The joined `locations` row selected with each session. -/
structure LocationRow where
  id : String
  name : String
  address : String
  deriving DecidableEq, Repr

/-- The joined `staff` row selected with each session. -/
structure CoachRow where
  id : String
  name : String
  rating : Option Int
  deriving DecidableEq, Repr

/-- One row of the reply of the store to the sessions query, with its
program/location/coach joins. -/
structure SessionRow where
  id : String
  day_of_week : Int
  start_time : String
  start_date : String
  end_date : String
  capacity : Int
  enrolled_count : Int
  status : String
  program : Option ProgramRow
  location : Option LocationRow
  coach : Option CoachRow
  deriving DecidableEq, Repr

/-- The per-turn display projection built from a matching session
(the object literal mapped over the filtered sessions).  The
`locationRating`/`sessionRating` review aggregates are produced by an
external query and are not modelled. -/
structure Recommendation where
  sessionId : String
  programName : String
  programDescription : String
  ageRange : Option String
  price : Int
  durationWeeks : Int
  locationId : Option String
  locationName : String
  locationAddress : String
  coachId : Option String
  coachName : String
  coachRating : Option Int
  dayOfWeek : Option String
  startTime : String
  startDate : String
  endDate : String
  capacity : Int
  enrolledCount : Int
  spotsRemaining : Int
  isFull : Bool := false
  deriving DecidableEq, Repr

/-- The program-keyword predicate of the Availability Filter:
`if (preferredProgram) { program.name.toLowerCase().includes(preferredProgram.toLowerCase()) }`
— a falsy keyword (absent or empty) imposes no constraint. -/
def progKeywordOk (preferredProgram : Option String) (name : String) : Bool :=
  match preferredProgram with
  | none => true
  | some k =>
    if k = "" then true
    else containsSubstr (jsToLower name) (jsToLower k)

/-- The time-of-day predicate shared by the filters: morning is
`hour < 12`, afternoon `12 ≤ hour < 17`, evening `hour ≥ 17`; a falsy
or `any` preference, an unrecognised preference, and a `NaN` hour all
pass (every `NaN` comparison in the source is false, so no branch
rejects). -/
def timeOfDayOk (preferredTimeOfDay : Option String) (startTime : String) : Bool :=
  match preferredTimeOfDay with
  | none => true
  | some t =>
    if t = "" then true
    else if t = "any" then true
    else
      match hourOf startTime with
      | none => true
      | some h =>
        if t = "morning" then decide (h < 12)
        else if t = "afternoon" then decide (12 ≤ h ∧ h < 17)
        else if t = "evening" then decide (17 ≤ h)
        else true

/-- The filter predicate of `fetchMatchingSessions`
(`index.ts` lines 423-500, identical at lines 1770-1847): availability,
program join present, tenant scope, parsed half-open age range, day
membership, optional program keyword, optional time of day. -/
def sessionMatches (organizationId : String) (childAge : Int)
    (preferredDays : List Int) (preferredTimeOfDay : Option String)
    (preferredProgram : Option String) (s : SessionRow) : Bool :=
  if s.capacity ≤ s.enrolled_count then false
  else
    match s.program with
    | none => false
    | some p =>
      match p.age_range with
      | none => false
      | some ar =>
        if ar = "" then false
        else if !(p.organization_id = organizationId) then false
        else
          match parseAgeRange ar with
          | none => false
          | some (minAge, maxAge) =>
            if childAge < (minAge : Int) ∨ (maxAge : Int) ≤ childAge then false
            else if !(s.day_of_week ∈ preferredDays) then false
            else if !(progKeywordOk preferredProgram p.name) then false
            else timeOfDayOk preferredTimeOfDay s.start_time

/-- The display projection of a matching session
(`index.ts` lines 506-532). -/
def mapSession (s : SessionRow) : Recommendation :=
  { sessionId := s.id
    programName := jsOrStr (s.program.map ProgramRow.name) "Unknown Program"
    programDescription := jsOrStr (s.program.bind ProgramRow.description) ""
    ageRange := some (jsOrStr (s.program.bind ProgramRow.age_range) "[0,18)")
    price := jsOrInt (s.program.bind ProgramRow.price_cents) 0
    durationWeeks := jsOrInt (s.program.bind ProgramRow.duration_weeks) 0
    locationId := jsOrNullStr (s.location.map LocationRow.id)
    locationName := jsOrStr (s.location.map LocationRow.name) "TBD"
    locationAddress := jsOrStr (s.location.map LocationRow.address) ""
    coachId := jsOrNullStr (s.coach.map CoachRow.id)
    coachName := jsOrStr (s.coach.map CoachRow.name) "TBD"
    coachRating := jsOrNullInt (s.coach.bind CoachRow.rating)
    dayOfWeek := jsIndex dayNames s.day_of_week
    startTime := s.start_time
    startDate := s.start_date
    endDate := s.end_date
    capacity := s.capacity
    enrolledCount := s.enrolled_count
    spotsRemaining := s.capacity - s.enrolled_count }

/-- The Availability Filter `fetchMatchingSessions` of variants 1 and 3
(`index.ts` lines 361-536 and 1708-1883) applied to the reply of the store:
filter, truncate to the first three matches, project for display. -/
def fetchMatchingSessions (organizationId : String) (childAge : Int)
    (preferredDays : List Int) (preferredTimeOfDay : Option String)
    (preferredProgram : Option String) (sessions : List SessionRow) :
    List Recommendation :=
  (((sessions.filter
      (sessionMatches organizationId childAge preferredDays
        preferredTimeOfDay preferredProgram)).take 3).map mapSession)

/-- The day clause of the variant 2 filter, which rejects only when a
non-empty `preferredDays` array was provided and the day is absent from
it:
otherwise the day imposes no constraint. -/
def dayFilterRejects (preferredDays : Option (List Int)) (d : Int) : Bool :=
  match preferredDays with
  | some l => !(l.length = 0) && !(d ∈ l)
  | none => false

/-- The variant 2 filter predicate (`index.ts` lines 1226-1264): no
program keyword; the day check applies only when a non-empty day list
was provided. -/
def sessionMatchesV2 (organizationId : String) (childAge : Int)
    (preferredDays : Option (List Int)) (preferredTimeOfDay : Option String)
    (s : SessionRow) : Bool :=
  if s.capacity ≤ s.enrolled_count then false
  else
    match s.program with
    | none => false
    | some p =>
      match p.age_range with
      | none => false
      | some ar =>
        if ar = "" then false
        else if !(p.organization_id = organizationId) then false
        else
          match parseAgeRange ar with
          | none => false
          | some (minAge, maxAge) =>
            if childAge < (minAge : Int) ∨ (maxAge : Int) ≤ childAge then false
            else if dayFilterRejects preferredDays s.day_of_week then false
            else timeOfDayOk preferredTimeOfDay s.start_time

/-- The variant 2 display projection (`index.ts` lines 1266-1284); the
filter guarantees the program join is present, so the fallbacks for an
absent join are unreachable there. -/
def mapSessionV2 (s : SessionRow) : Recommendation :=
  { sessionId := s.id
    programName := jsOrStr (s.program.map ProgramRow.name) "Unknown Program"
    programDescription := jsOrStr (s.program.bind ProgramRow.description) ""
    ageRange := s.program.bind ProgramRow.age_range
    price := jsOrInt (s.program.bind ProgramRow.price_cents) 0
    durationWeeks := jsOrInt (s.program.bind ProgramRow.duration_weeks) 0
    locationId := none
    locationName := jsOrStr (s.location.map LocationRow.name) ""
    locationAddress := jsOrStr (s.location.map LocationRow.address) ""
    coachId := none
    coachName := jsOrStr (s.coach.map CoachRow.name) "TBD"
    coachRating := jsOrNullInt (s.coach.bind CoachRow.rating)
    dayOfWeek := jsIndex dayNames s.day_of_week
    startTime := s.start_time
    startDate := s.start_date
    endDate := s.end_date
    capacity := s.capacity
    enrolledCount := s.enrolled_count
    spotsRemaining := s.capacity - s.enrolled_count }

/-- The variant 2 `fetchMatchingSessions` (`index.ts` lines 1173-1288). -/
def fetchMatchingSessionsV2 (organizationId : String) (childAge : Int)
    (preferredDays : Option (List Int)) (preferredTimeOfDay : Option String)
    (sessions : List SessionRow) : List Recommendation :=
  (((sessions.filter
      (sessionMatchesV2 organizationId childAge preferredDays
        preferredTimeOfDay)).take 3).map mapSessionV2)

/-- Result record of `findRequestedSession`
(`{ found, session, issue }`, `index.ts` line 2050). -/
structure FindResult where
  found : Bool
  session : Option Recommendation
  issue : Option String
  deriving DecidableEq, Repr

/-- Result record of `checkForFullRequestedSession`
(`{ isFullMatch, session }`, `index.ts` line 564). -/
structure FullCheckResult where
  isFullMatch : Bool
  session : Option Recommendation
  deriving DecidableEq, Repr

/-- Guard shared by the requested-session checks:
`!preferredDays || preferredDays.length === 0`. -/
def daysFalsyOrEmpty : Option (List Int) → Bool
  | none => true
  | some l => decide (l.length = 0)

/-- The display projection used when the program join of the session is in
hand (`index.ts` lines 2125-2147, textually repeated at 1984-2006):
unlike `mapSession` it reads the program fields directly and keeps
`age_range` undefaulted. -/
def mapSessionWithProgram (s : SessionRow) (p : ProgramRow) : Recommendation :=
  { sessionId := s.id
    programName := p.name
    programDescription := jsOrStr p.description ""
    ageRange := p.age_range
    price := jsOrInt p.price_cents 0
    durationWeeks := jsOrInt p.duration_weeks 0
    locationId := jsOrNullStr (s.location.map LocationRow.id)
    locationName := jsOrStr (s.location.map LocationRow.name) "TBD"
    locationAddress := jsOrStr (s.location.map LocationRow.address) ""
    coachId := jsOrNullStr (s.coach.map CoachRow.id)
    coachName := jsOrStr (s.coach.map CoachRow.name) "TBD"
    coachRating := jsOrNullInt (s.coach.bind CoachRow.rating)
    dayOfWeek := jsIndex dayNames s.day_of_week
    startTime := s.start_time
    startDate := s.start_date
    endDate := s.end_date
    capacity := s.capacity
    enrolledCount := s.enrolled_count
    spotsRemaining := s.capacity - s.enrolled_count }

/-- The request-identity predicate of the `findRequestedSession` loop
(`index.ts` lines 2097-2118): organization scope, case-insensitive
program-keyword containment, day membership and time of day — but not
availability and not age, which are classified afterwards. -/
def requestMatches (organizationId : String) (keyword : String)
    (days : List Int) (preferredTimeOfDay : Option String)
    (s : SessionRow) : Bool :=
  match s.program with
  | none => false
  | some p =>
    (p.organization_id = organizationId : Bool) &&
    containsSubstr (jsToLower p.name) (jsToLower keyword) &&
    (s.day_of_week ∈ days : Bool) &&
    timeOfDayOk preferredTimeOfDay s.start_time

/-- Classification of the first matching session
(`index.ts` lines 2149-2166): a full status or exhausted capacity is
tagged `full`; otherwise an age outside a parseable half-open range is
tagged `wrong_age`; otherwise the session is available (`issue` null).
An unparseable or absent `age_range` skips the age check. -/
def classifyRequested (childAge : Int) (s : SessionRow) (p : ProgramRow) :
    FindResult :=
  let sessionData := mapSessionWithProgram s p
  if s.status = "full" ∨ s.capacity ≤ s.enrolled_count then
    ⟨true, some sessionData, some "full"⟩
  else
    match p.age_range with
    | some ar =>
      match parseAgeRange ar with
      | some (minAge, maxAge) =>
        if childAge < (minAge : Int) ∨ (maxAge : Int) ≤ childAge then
          ⟨true, some sessionData, some "wrong_age"⟩
        else ⟨true, some sessionData, none⟩
      | none => ⟨true, some sessionData, none⟩
    | none => ⟨true, some sessionData, none⟩

/-- The session loop of `findRequestedSession` (`index.ts` lines
2096-2169): skip rows failing the request-identity checks, classify the
first row passing them. -/
def findRequestedSessionLoop (organizationId : String) (childAge : Int)
    (keyword : String) (days : List Int) (preferredTimeOfDay : Option String) :
    List SessionRow → FindResult
  | [] => ⟨false, none, none⟩
  | s :: rest =>
    match s.program with
    | none =>
      findRequestedSessionLoop organizationId childAge keyword days
        preferredTimeOfDay rest
    | some p =>
      if !(p.organization_id = organizationId) then
        findRequestedSessionLoop organizationId childAge keyword days
          preferredTimeOfDay rest
      else if !(containsSubstr (jsToLower p.name) (jsToLower keyword)) then
        findRequestedSessionLoop organizationId childAge keyword days
          preferredTimeOfDay rest
      else if !(s.day_of_week ∈ days) then
        findRequestedSessionLoop organizationId childAge keyword days
          preferredTimeOfDay rest
      else if !(timeOfDayOk preferredTimeOfDay s.start_time) then
        findRequestedSessionLoop organizationId childAge keyword days
          preferredTimeOfDay rest
      else classifyRequested childAge s p

/-- The check `findRequestedSession` (`index.ts` lines 2043-2170)
applied to the reply of the store (the query constrains only
`start_date`, so full and
age-mismatched sessions are among the rows): find the exact requested
session and report whether it is available, full, or age-mismatched.
Without a truthy program keyword and a non-empty day list it reports no
match. -/
def findRequestedSession (organizationId : String) (childAge : Int)
    (preferredDays : Option (List Int)) (preferredTimeOfDay : Option String)
    (preferredProgram : Option String) (sessions : List SessionRow) :
    FindResult :=
  if !(truthyStr preferredProgram) || daysFalsyOrEmpty preferredDays then
    ⟨false, none, none⟩
  else
    findRequestedSessionLoop organizationId childAge
      (preferredProgram.getD "") (preferredDays.getD []) preferredTimeOfDay
      sessions

/-- The full-session display projection of `checkForFullRequestedSession`
(`index.ts` lines 642-665): `spotsRemaining` is pinned to `0` and the
record carries `isFull: true`. -/
def mapFullSession (s : SessionRow) (p : ProgramRow) : Recommendation :=
  { mapSessionWithProgram s p with spotsRemaining := 0, isFull := true }

/-- The session loop of `checkForFullRequestedSession` (`index.ts`
lines 610-668): organization scope, keyword containment, a parseable
age range containing the child, day membership and time of day; the
first row passing all of them is returned as the matching full
session. -/
def checkForFullLoop (organizationId : String) (childAge : Int)
    (keyword : String) (days : List Int) (preferredTimeOfDay : Option String) :
    List SessionRow → FullCheckResult
  | [] => ⟨false, none⟩
  | s :: rest =>
    match s.program with
    | none =>
      checkForFullLoop organizationId childAge keyword days
        preferredTimeOfDay rest
    | some p =>
      if !(p.organization_id = organizationId) then
        checkForFullLoop organizationId childAge keyword days
          preferredTimeOfDay rest
      else if !(containsSubstr (jsToLower p.name) (jsToLower keyword)) then
        checkForFullLoop organizationId childAge keyword days
          preferredTimeOfDay rest
      else
        match p.age_range with
        | none =>
          checkForFullLoop organizationId childAge keyword days
            preferredTimeOfDay rest
        | some ar =>
          match parseAgeRange ar with
          | none =>
            checkForFullLoop organizationId childAge keyword days
              preferredTimeOfDay rest
          | some (minAge, maxAge) =>
            if childAge < (minAge : Int) ∨ (maxAge : Int) ≤ childAge then
              checkForFullLoop organizationId childAge keyword days
                preferredTimeOfDay rest
            else if !(s.day_of_week ∈ days) then
              checkForFullLoop organizationId childAge keyword days
                preferredTimeOfDay rest
            else if !(timeOfDayOk preferredTimeOfDay s.start_time) then
              checkForFullLoop organizationId childAge keyword days
                preferredTimeOfDay rest
            else ⟨true, some (mapFullSession s p)⟩

/-- The check `checkForFullRequestedSession` (`index.ts` lines 557-671)
applied to the reply of the store to its full-status query: does the
specific request of the caller name a session that is full?  Without a truthy program
keyword and a non-empty day list it reports no match. -/
def checkForFullRequestedSession (organizationId : String) (childAge : Int)
    (preferredDays : Option (List Int)) (preferredTimeOfDay : Option String)
    (preferredProgram : Option String) (sessions : List SessionRow) :
    FullCheckResult :=
  if daysFalsyOrEmpty preferredDays || !(truthyStr preferredProgram) then
    ⟨false, none⟩
  else
    checkForFullLoop organizationId childAge (preferredProgram.getD "")
      (preferredDays.getD []) preferredTimeOfDay sessions

/-- The collection loop of `fetchAlternativeSessions` (`index.ts` lines
1954-1974, identical at 722-742): a session is kept iff its program
join is present, its organization matches, its parsed age range
contains the child, and — only when a truthy program keyword was given —
the keyword occurs in the program name; with no keyword nothing is ever
collected.  Day, time, location and capacity are not consulted. -/
def altSessionPasses (organizationId : String) (childAge : Int)
    (preferredProgram : Option String) (p : ProgramRow) : Bool :=
  (p.organization_id = organizationId : Bool) &&
  (match p.age_range with
   | none => false
   | some ar =>
     match parseAgeRange ar with
     | none => false
     | some (minAge, maxAge) =>
       decide ((minAge : Int) ≤ childAge ∧ childAge < (maxAge : Int))) &&
  (match preferredProgram with
   | none => false
   | some k =>
     if k = "" then false
     else containsSubstr (jsToLower p.name) (jsToLower k))

/-- The search `fetchAlternativeSessions` (`index.ts` lines 1905-2011
and 673-779) applied to the reply of the store: collect the passing
sessions in source
order, truncate to the first three, project for display.  The unused
`preferredDays` parameter is kept from the source signature. -/
def fetchAlternativeSessions (organizationId : String) (childAge : Int)
    (preferredProgram : Option String) (preferredDays : Option (List Int))
    (sessions : List SessionRow) : List Recommendation :=
  let _ := preferredDays
  ((sessions.filterMap (fun s =>
      match s.program with
      | none => none
      | some p =>
        if altSessionPasses organizationId childAge preferredProgram p then
          some (s, p)
        else none)).take 3).map (fun sp => mapSessionWithProgram sp.1 sp.2)

/-- The filter predicate of `fetchBroaderMatches` (`index.ts` lines
2263-2284): program join and truthy `age_range`, organization scope,
spare capacity, parsed age range containing the child, and day
membership only when between one and six preferred days were given (a
full seven-day set imposes no day constraint). -/
def broaderMatchPasses (organizationId : String) (childAge : Int)
    (preferredDays : Option (List Int)) (s : SessionRow) : Bool :=
  match s.program with
  | none => false
  | some p =>
    match p.age_range with
    | none => false
    | some ar =>
      if ar = "" then false
      else if !(p.organization_id = organizationId) then false
      else if s.capacity ≤ s.enrolled_count then false
      else
        match parseAgeRange ar with
        | none => false
        | some (minAge, maxAge) =>
          if childAge < (minAge : Int) ∨ (maxAge : Int) ≤ childAge then false
          else
            !(match preferredDays with
              | some l =>
                decide (0 < l.length) && decide (l.length < 7) &&
                  !(s.day_of_week ∈ l)
              | none => false)

/-- The fallback `fetchBroaderMatches` (`index.ts` lines 2214-2318)
applied to the reply of the store: the relaxed filter, truncated to
five rows. -/
def fetchBroaderMatches (organizationId : String) (childAge : Int)
    (preferredDays : Option (List Int)) (sessions : List SessionRow) :
    List Recommendation :=
  ((sessions.filter (broaderMatchPasses organizationId childAge
      preferredDays)).take 5).map mapSession

/-- The two shapes of the variant 3 recommendation phase: either the
requested-but-unavailable branch (`index.ts` lines 1388-1416), or the
ordinary recommendation list. -/
inductive RecPhase where
  | unavailable (requestedSession : Option Recommendation)
      (sessionIssue : String) (alternatives : List Recommendation)
  | normal (recommendations : List Recommendation)
  deriving DecidableEq, Repr

/-- The variant 3 recommendation phase (`index.ts` lines 1369-1443), run
once the context holds a truthy child age and a non-empty day list:
look for the exact requested session; when it was found with a truthy
issue, answer the unavailable-session branch with alternatives;
otherwise fall through to the Availability Filter, replaced by the
broader fallback when it matches nothing. -/
def v3RecommendationPhase (organizationId : String) (childAge : Int)
    (preferredDays : List Int) (preferredTimeOfDay : Option String)
    (preferredProgram : Option String) (sessions : List SessionRow) :
    RecPhase :=
  let rc := findRequestedSession organizationId childAge (some preferredDays)
    preferredTimeOfDay preferredProgram sessions
  if rc.found && truthyStr rc.issue then
    .unavailable rc.session (rc.issue.getD "")
      (fetchAlternativeSessions organizationId childAge preferredProgram
        (some preferredDays) sessions)
  else
    let recs := fetchMatchingSessions organizationId childAge preferredDays
      preferredTimeOfDay preferredProgram sessions
    if recs.length = 0 then
      .normal (fetchBroaderMatches organizationId childAge
        (some preferredDays) sessions)
    else .normal recs

/-- The structured extraction returned by the external extractor in
the variant 2 schema (`index.ts` lines 889-918); `none` stands for a
null or omitted field, which the merge treats alike. -/
structure ExtractedData where
  childName : Option String := none
  childAge : Option Int := none
  preferredDays : Option (List Int) := none
  preferredTime : Option String := none
  preferredTimeOfDay : Option String := none
  deriving DecidableEq, Repr

/-- The known-facts record of one conversation as the variant 2 handler
reads it. -/
structure ConversationContext where
  currentState : String
  organizationId : String
  childName : Option String := none
  childAge : Option Int := none
  preferredDays : Option (List Int) := none
  preferredTime : Option String := none
  preferredTimeOfDay : Option String := none
  deriving DecidableEq, Repr

/-- The parsed structured response of the external extractor
(variant 2, `GeminiStructuredResponse`). -/
structure StructuredResponse where
  message : String
  extractedData : ExtractedData
  nextState : String
  deriving DecidableEq, Repr

/-- The empty `extractedData: {}` object of the corrective response. -/
def emptyExtractedData : ExtractedData := {}

/-- The variant 2 field-by-field context merge (`index.ts` lines 967-982):
each extracted field overwrites the stored one only when truthy. -/
def mergeContext (c : ConversationContext) (e : ExtractedData) :
    ConversationContext :=
  { c with
    childName := if truthyStr e.childName then e.childName else c.childName
    childAge := if truthyInt e.childAge then e.childAge else c.childAge
    preferredDays :=
      if truthyList e.preferredDays then e.preferredDays else c.preferredDays
    preferredTime :=
      if truthyStr e.preferredTime then e.preferredTime else c.preferredTime
    preferredTimeOfDay :=
      if truthyStr e.preferredTimeOfDay then e.preferredTimeOfDay
      else c.preferredTimeOfDay }

/-- The age-validation condition of variant 2 (`index.ts` lines
984-985) and of the earlier variants:
`extractedData.childAge && (childAge < 2 || childAge > 18)` — note that
an extracted age of `0` is falsy and never triggers it. -/
def extractedAgeInvalid (e : ExtractedData) : Bool :=
  truthyInt e.childAge &&
    (match e.childAge with
     | some a => decide (a < 2 ∨ 18 < a)
     | none => false)

/-- The corrective message of the age-validation branch. -/
def correctiveAgeMessage : String :=
  "Hmm, that age doesn\x27t seem quite right for our youth programs (ages 2-18). Could you double-check and let me know their actual age?"

/-- What one turn of the variant 2 handler observably does: the
`conversations` write (state and context), the response fields, and the
recommendation list (`none` when no session lookup ran this turn; the
`quickReplies`/`progress` display fields are derived from the same
state string and omitted). -/
structure TurnOutcome where
  persisted : Option (String × ConversationContext)
  responseMessage : String
  responseNextState : String
  responseExtractedData : ExtractedData
  recommendations : Option (List Recommendation)
  deriving DecidableEq, Repr

/-- The variant 2 request handler after the extractor call (`index.ts`
lines 963-1064): merge the extraction into the context; reject a truthy
out-of-bounds extracted age with a corrective response that changes no
state and persists nothing; otherwise fetch recommendations only when
the suggested next state is `showing_recommendations` and the merged
context has a truthy child age and truthy `preferredDays` or
`preferredTimeOfDay`, then persist the suggested next state and merged
context unconditionally and echo the suggested state in the
response. -/
def handleTurnV2 (context : ConversationContext)
    (sresp : StructuredResponse) (sessions : List SessionRow) :
    TurnOutcome :=
  let updatedContext := mergeContext context sresp.extractedData
  if extractedAgeInvalid sresp.extractedData then
    { persisted := none
      responseMessage := correctiveAgeMessage
      responseNextState := context.currentState
      responseExtractedData := emptyExtractedData
      recommendations := none }
  else
    let recommendations :=
      if sresp.nextState = "showing_recommendations"
          && truthyInt updatedContext.childAge
          && (truthyList updatedContext.preferredDays
              || truthyStr updatedContext.preferredTimeOfDay) then
        some (fetchMatchingSessionsV2 context.organizationId
          (updatedContext.childAge.getD 0) updatedContext.preferredDays
          updatedContext.preferredTimeOfDay sessions)
      else none
    { persisted := some (sresp.nextState, updatedContext)
      responseMessage := sresp.message
      responseNextState := sresp.nextState
      responseExtractedData := sresp.extractedData
      recommendations := recommendations }

/-- The variant 1 raw extraction object, in which a recognized field may
be absent (`none`), explicitly `null` (`some none`), or carry a value
(`some (some v)`) — the variant 1 extractor schema (`index.ts` lines
191-199) asks for explicit nulls. -/
structure RawExtractedData where
  childName : Option (Option String) := none
  childAge : Option (Option Int) := none
  preferredDays : Option (Option (List Int)) := none
  preferredTime : Option (Option String) := none
  preferredTimeOfDay : Option (Option String) := none
  preferredProgram : Option (Option String) := none
  deriving DecidableEq, Repr

/-- The known-fact fields of the context object of variant 1 and of the
earlier variants. -/
structure ContextFields where
  childName : Option String := none
  childAge : Option Int := none
  preferredDays : Option (List Int) := none
  preferredTime : Option String := none
  preferredTimeOfDay : Option String := none
  preferredProgram : Option String := none
  deriving DecidableEq, Repr

/-- One field of the object spread: an absent extracted field keeps the
stored value, a present one — `null` included — replaces it. -/
def spreadField (cur : Option α) (e : Option (Option α)) : Option α :=
  match e with
  | none => cur
  | some v => v

/-- The variant 1 spread-based context merge
(`const updatedContext = { ...context, ...extractedData }`,
`index.ts` line 45). -/
def spreadMergeContext (c : ContextFields) (e : RawExtractedData) :
    ContextFields :=
  { childName := spreadField c.childName e.childName
    childAge := spreadField c.childAge e.childAge
    preferredDays := spreadField c.preferredDays e.preferredDays
    preferredTime := spreadField c.preferredTime e.preferredTime
    preferredTimeOfDay := spreadField c.preferredTimeOfDay e.preferredTimeOfDay
    preferredProgram := spreadField c.preferredProgram e.preferredProgram }

/-- The rule-based extraction record of the earliest variants
(`extractDataFromMessage`, `unnamed/part_002` lines 218-270): a field is
either absent or carries a value, never an explicit null. -/
structure RuleExtractedData where
  childName : Option String := none
  childAge : Option Int := none
  preferredDays : Option (List Int) := none
  preferredTimeOfDay : Option String := none
  deriving DecidableEq, Repr

/-- The spread merge `{ ...context, ...extractedData }` persisted by
`unnamed/part_002` (line 146): a present extracted field overwrites, an
absent one keeps the stored value. -/
def mergeRuleExtraction (c : ContextFields) (e : RuleExtractedData) :
    ContextFields :=
  { c with
    childName := e.childName.or c.childName
    childAge := e.childAge.or c.childAge
    preferredDays := e.preferredDays.or c.preferredDays
    preferredTimeOfDay := e.preferredTimeOfDay.or c.preferredTimeOfDay }

/-- The rule-based state machine `determineNextState`
(`unnamed/part_002` lines 272-301): transitions are decided from the
current state and the extraction of THIS turn only. -/
def determineNextState (currentState : String) (e : RuleExtractedData) :
    String :=
  if currentState = "idle" ∨ currentState = "greeting" then
    "collecting_child_info"
  else if currentState = "collecting_child_info" then
    if truthyStr e.childName && truthyInt e.childAge then
      "collecting_preferences"
    else if truthyStr e.childName then "collecting_child_info"
    else currentState
  else if currentState = "collecting_preferences" then
    if truthyList e.preferredDays || truthyStr e.preferredTimeOfDay then
      "showing_recommendations"
    else currentState
  else if currentState = "showing_recommendations" then "confirming_selection"
  else if currentState = "confirming_selection" then "collecting_payment"
  else currentState

/-- The later state machine of `unnamed/part_003` (lines 349-383),
which falls back on the merged context (`fullContext`) for each fact;
its extraction record also carries `preferredTime`. -/
def determineNextStateCtx (currentState : String) (e : RuleExtractedData)
    (ePreferredTime : Option String) (fullContext : ContextFields) : String :=
  if currentState = "idle" ∨ currentState = "greeting" then
    "collecting_child_info"
  else if currentState = "collecting_child_info" then
    if (truthyStr e.childName || truthyStr fullContext.childName)
        && (truthyInt e.childAge || truthyInt fullContext.childAge) then
      "collecting_preferences"
    else "collecting_child_info"
  else if currentState = "collecting_preferences" then
    if (truthyList e.preferredDays || truthyList fullContext.preferredDays)
        && (truthyStr e.preferredTimeOfDay || truthyStr ePreferredTime
            || truthyStr fullContext.preferredTimeOfDay
            || truthyStr fullContext.preferredTime) then
      "showing_recommendations"
    else "collecting_preferences"
  else if currentState = "showing_recommendations" then "confirming_selection"
  else if currentState = "confirming_selection" then "collecting_payment"
  else currentState

/-- Concrete location row used by the witnesses. -/
def wLocation : LocationRow :=
  { id := "loc1", name := "Main Gym", address := "1 Main St" }

/-- Concrete soccer program of organization `org1` with half-open age
range `[4,6)`. -/
def wProgram : ProgramRow :=
  { id := "p1", name := "Mini Soccer", description := some "Intro soccer",
    age_range := some "[4,6)", price_cents := some 12000,
    duration_weeks := some 8, organization_id := "org1" }

/-- Concrete active Wednesday-morning soccer session with spare
capacity. -/
def wSession : SessionRow :=
  { id := "s1", day_of_week := 3, start_time := "10:00",
    start_date := "2026-01-01", end_date := "2026-03-01", capacity := 10,
    enrolled_count := 4, status := "active", program := some wProgram,
    location := some wLocation, coach := none }

/-- The same session at full capacity with a full status. -/
def wFullSession : SessionRow :=
  { wSession with id := "s2", enrolled_count := 10, status := "full" }

/-- Concrete basketball program of the same organization, age range
`[5,9)`. -/
def wBasketballProgram : ProgramRow :=
  { id := "p2", name := "Basketball Stars", description := none,
    age_range := some "[5,9)", price_cents := some 10000,
    duration_weeks := some 8, organization_id := "org1" }

/-- Concrete active basketball session at the same location and start
time as `wFullSession` but on the adjacent day (Thursday), with spare
capacity and an age range containing 7. -/
def wAdjacentDaySession : SessionRow :=
  { id := "s3", day_of_week := 4, start_time := "10:00",
    start_date := "2026-01-01", end_date := "2026-03-01", capacity := 8,
    enrolled_count := 2, status := "active",
    program := some wBasketballProgram, location := some wLocation,
    coach := none }

/-- Concrete context in the preference-collecting state that knows the
child name but not yet the age or any schedule preference. -/
def cPrefs : ConversationContext :=
  { currentState := "collecting_preferences", organizationId := "org1",
    childName := some "Emma" }

/-- Concrete extractor response that suggests advancing to
`showing_recommendations` with an empty extraction. -/
def srSuggest : StructuredResponse :=
  { message := "Here are some great options!", extractedData := {},
    nextState := "showing_recommendations" }

/-- Concrete context that already knows the child name, a valid age and
a preferred day. -/
def cComplete : ConversationContext :=
  { currentState := "collecting_preferences", organizationId := "org1",
    childName := some "Emma", childAge := some 7,
    preferredDays := some [3] }

/-- Concrete extractor response carrying the extracted age `0`. -/
def srZeroAge : StructuredResponse :=
  { message := "Noted.", extractedData := { childAge := some 0 },
    nextState := "showing_recommendations" }

/-- Concrete extractor response carrying the extracted age `20`. -/
def srAge20 : StructuredResponse :=
  { message := "Noted.", extractedData := { childAge := some 20 },
    nextState := "collecting_preferences" }

/-- Concrete rule-based extraction carrying only an age. -/
def eAgeOnly : RuleExtractedData := { childAge := some 7 }

/-- Concrete stored facts in which the child name is already known. -/
def cNameKnown : ContextFields := { childName := some "Emma" }

/-- Characterization of the variant 1/3 Availability Filter predicate as
a conjunction of its nine checks. -/
lemma sessionMatches_eq_true_iff (org : String) (age : Int) (days : List Int)
    (tod prog : Option String) (s : SessionRow) :
    sessionMatches org age days tod prog s = true ↔
      ∃ p ar mn mx, s.program = some p ∧ p.age_range = some ar ∧ ¬(ar = "") ∧
        parseAgeRange ar = some (mn, mx) ∧
        s.enrolled_count < s.capacity ∧
        p.organization_id = org ∧
        ((mn : Int) ≤ age ∧ age < (mx : Int)) ∧
        s.day_of_week ∈ days ∧
        progKeywordOk prog p.name = true ∧
        timeOfDayOk tod s.start_time = true := by
  constructor
  · intro h
    unfold sessionMatches at h
    by_cases hcap : s.capacity ≤ s.enrolled_count
    · rw [if_pos hcap] at h; simp at h
    · rw [if_neg hcap] at h
      rcases hp : s.program with _ | p
      · simp [hp] at h
      · simp only [hp] at h
        rcases har : p.age_range with _ | ar
        · simp [har] at h
        · simp only [har] at h
          by_cases hne : ar = ""
          · rw [if_pos hne] at h; simp at h
          · rw [if_neg hne] at h
            by_cases horg : p.organization_id = org
            · simp only [horg, decide_True, Bool.not_true, Bool.false_eq_true,
                if_false] at h
              rcases hpar : parseAgeRange ar with _ | ⟨mn, mx⟩
              · simp [hpar] at h
              · simp only [hpar] at h
                by_cases hage : age < (mn : Int) ∨ (mx : Int) ≤ age
                · rw [if_pos hage] at h; simp at h
                · rw [if_neg hage] at h
                  by_cases hday : s.day_of_week ∈ days
                  · simp only [hday, decide_True, Bool.not_true,
                      Bool.false_eq_true, if_false] at h
                    by_cases hkw : progKeywordOk prog p.name = true
                    · simp only [hkw, Bool.not_true, Bool.false_eq_true,
                        if_false] at h
                      push_neg at hage
                      exact ⟨p, ar, mn, mx, rfl, har, hne, hpar,
                        not_le.mp hcap, horg, ⟨hage.1, hage.2⟩, hday, hkw, h⟩
                    · simp [hkw] at h
                  · simp [hday] at h
            · simp [horg] at h
  · rintro ⟨p, ar, mn, mx, hp, har, hne, hpar, hcap, horg, ⟨hge, hlt⟩, hday,
      hkw, htod⟩
    simp [sessionMatches, hp, har, hpar, hne, horg, hday, hkw, htod,
      not_le.mpr hcap, not_lt.mpr hge, not_le.mpr hlt]

/-- Characterization of the variant 2 Availability Filter predicate as a
conjunction of its checks. -/
lemma sessionMatchesV2_eq_true_iff (org : String) (age : Int)
    (pd : Option (List Int)) (tod : Option String) (s : SessionRow) :
    sessionMatchesV2 org age pd tod s = true ↔
      ∃ p ar mn mx, s.program = some p ∧ p.age_range = some ar ∧ ¬(ar = "") ∧
        parseAgeRange ar = some (mn, mx) ∧
        s.enrolled_count < s.capacity ∧
        p.organization_id = org ∧
        ((mn : Int) ≤ age ∧ age < (mx : Int)) ∧
        dayFilterRejects pd s.day_of_week = false ∧
        timeOfDayOk tod s.start_time = true := by
  constructor
  · intro h
    unfold sessionMatchesV2 at h
    by_cases hcap : s.capacity ≤ s.enrolled_count
    · rw [if_pos hcap] at h; simp at h
    · rw [if_neg hcap] at h
      rcases hp : s.program with _ | p
      · simp [hp] at h
      · simp only [hp] at h
        rcases har : p.age_range with _ | ar
        · simp [har] at h
        · simp only [har] at h
          by_cases hne : ar = ""
          · rw [if_pos hne] at h; simp at h
          · rw [if_neg hne] at h
            by_cases horg : p.organization_id = org
            · simp only [horg, decide_True, Bool.not_true, Bool.false_eq_true,
                if_false] at h
              rcases hpar : parseAgeRange ar with _ | ⟨mn, mx⟩
              · simp [hpar] at h
              · simp only [hpar] at h
                by_cases hage : age < (mn : Int) ∨ (mx : Int) ≤ age
                · rw [if_pos hage] at h; simp at h
                · rw [if_neg hage] at h
                  by_cases hday : dayFilterRejects pd s.day_of_week = true
                  · simp [hday] at h
                  · rw [if_neg hday] at h
                    push_neg at hage
                    exact ⟨p, ar, mn, mx, rfl, har, hne, hpar, not_le.mp hcap,
                      horg, ⟨hage.1, hage.2⟩, Bool.not_eq_true _ ▸ hday, h⟩
            · simp [horg] at h
  · rintro ⟨p, ar, mn, mx, hp, har, hne, hpar, hcap, horg, ⟨hge, hlt⟩, hday,
      htod⟩
    simp [sessionMatchesV2, hp, har, hpar, hne, horg, hday, htod,
      not_le.mpr hcap, not_lt.mpr hge, not_le.mpr hlt]

/-- Membership in a filter-truncate-project pipeline comes from a source
element passing the filter. -/
lemma mem_filter_take_map {α β : Type} (p : α → Bool) (f : α → β)
    (l : List α) (k : Nat) (r : β)
    (h : r ∈ ((l.filter p).take k).map f) :
    ∃ s, s ∈ l ∧ p s = true ∧ r = f s := by
  rcases List.mem_map.mp h with ⟨s, hs, rfl⟩
  have hs2 : s ∈ l.filter p := List.mem_of_mem_take hs
  rcases List.mem_filter.mp hs2 with ⟨h1, h2⟩
  exact ⟨s, h1, h2, rfl⟩

/-- C1 (tenant isolation): for every invocation of the session-matching
filter (both the variant 1/3 and the variant 2 copies) with a requested
organization id, and regardless of what the backing store returns, every
entry of the recommendation list is the projection of a stored session
whose owning program has exactly the requested `organization_id` — the
check is enforced in the application-side filter. -/
theorem tenant_isolation (org : String) (age : Int) (days : List Int)
    (daysOpt : Option (List Int)) (tod prog : Option String)
    (sessions : List SessionRow) :
    (∀ r ∈ fetchMatchingSessions org age days tod prog sessions,
       ∃ s p, s ∈ sessions ∧ r = mapSession s ∧ s.program = some p ∧
         p.organization_id = org) ∧
    (∀ r ∈ fetchMatchingSessionsV2 org age daysOpt tod sessions,
       ∃ s p, s ∈ sessions ∧ r = mapSessionV2 s ∧ s.program = some p ∧
         p.organization_id = org) := by
  constructor
  · intro r hr
    obtain ⟨s, hsl, hmatch, rfl⟩ := mem_filter_take_map _ _ _ _ _ hr
    obtain ⟨p, ar, mn, mx, hp, _, _, _, _, horg, _, _, _, _⟩ :=
      (sessionMatches_eq_true_iff org age days tod prog s).mp hmatch
    exact ⟨s, p, hsl, rfl, hp, horg⟩
  · intro r hr
    obtain ⟨s, hsl, hmatch, rfl⟩ := mem_filter_take_map _ _ _ _ _ hr
    obtain ⟨p, ar, mn, mx, hp, _, _, _, _, horg, _, _, _⟩ :=
      (sessionMatchesV2_eq_true_iff org age daysOpt tod s).mp hmatch
    exact ⟨s, p, hsl, rfl, hp, horg⟩

/-- Witness for C1: a concrete matching session of `org1` appears in the
output and indeed carries a program of `org1`. -/
theorem tenant_isolation_witness :
    (∃ s p, s ∈ [wSession] ∧ mapSession wSession = mapSession s ∧
      s.program = some p ∧ p.organization_id = "org1") ∧
    (∃ s p, s ∈ [wSession] ∧ mapSessionV2 wSession = mapSessionV2 s ∧
      s.program = some p ∧ p.organization_id = "org1") :=
  ⟨(tenant_isolation "org1" 4 [3] (some [3]) none none [wSession]).1
      (mapSession wSession) (by decide),
   (tenant_isolation "org1" 4 [3] (some [3]) none none [wSession]).2
      (mapSessionV2 wSession) (by decide)⟩

/-- C2 (availability exclusion): every recommendation produced by the
matching filter (either copy) comes from a session with
`enrolledCount < capacity`; its derived `spotsRemaining` equals
`capacity - enrolledCount` and is therefore nonnegative, and a session
with `enrolledCount ≥ capacity` never appears in the output. -/
theorem availability_exclusion (org : String) (age : Int) (days : List Int)
    (daysOpt : Option (List Int)) (tod prog : Option String)
    (sessions : List SessionRow) :
    (∀ r ∈ fetchMatchingSessions org age days tod prog sessions,
       r.spotsRemaining = r.capacity - r.enrolledCount ∧
       0 ≤ r.spotsRemaining ∧ r.enrolledCount < r.capacity) ∧
    (∀ r ∈ fetchMatchingSessionsV2 org age daysOpt tod sessions,
       r.spotsRemaining = r.capacity - r.enrolledCount ∧
       0 ≤ r.spotsRemaining ∧ r.enrolledCount < r.capacity) := by
  constructor
  · intro r hr
    obtain ⟨s, hsl, hmatch, rfl⟩ := mem_filter_take_map _ _ _ _ _ hr
    obtain ⟨p, ar, mn, mx, hp, _, _, _, hcap, _, _, _, _, _⟩ :=
      (sessionMatches_eq_true_iff org age days tod prog s).mp hmatch
    refine ⟨rfl, ?_, ?_⟩ <;> simp [mapSession] <;> omega
  · intro r hr
    obtain ⟨s, hsl, hmatch, rfl⟩ := mem_filter_take_map _ _ _ _ _ hr
    obtain ⟨p, ar, mn, mx, hp, _, _, _, hcap, _, _, _, _⟩ :=
      (sessionMatchesV2_eq_true_iff org age daysOpt tod s).mp hmatch
    refine ⟨rfl, ?_, ?_⟩ <;> simp [mapSessionV2] <;> omega

/-- Witness for C2: the projection of the concrete matching session
satisfies the spots-remaining invariant. -/
theorem availability_exclusion_witness :
    ((mapSession wSession).spotsRemaining =
        (mapSession wSession).capacity - (mapSession wSession).enrolledCount ∧
      0 ≤ (mapSession wSession).spotsRemaining ∧
      (mapSession wSession).enrolledCount < (mapSession wSession).capacity) ∧
    ((mapSessionV2 wSession).spotsRemaining =
        (mapSessionV2 wSession).capacity -
          (mapSessionV2 wSession).enrolledCount ∧
      0 ≤ (mapSessionV2 wSession).spotsRemaining ∧
      (mapSessionV2 wSession).enrolledCount <
        (mapSessionV2 wSession).capacity) :=
  ⟨(availability_exclusion "org1" 4 [3] (some [3]) none none [wSession]).1
      (mapSession wSession) (by decide),
   (availability_exclusion "org1" 4 [3] (some [3]) none none [wSession]).2
      (mapSessionV2 wSession) (by decide)⟩

/-- C3, amended (recommendation guard): the variant 2 handler performs
the session lookup only when the externally suggested next state is
`showing_recommendations` and the merged context has a truthy child age
and a truthy `preferredDays` or `preferredTimeOfDay`; the suggested next
state itself, however, is persisted and echoed unconditionally whenever
the invalid-age branch is not taken — only the lookup is guarded, not
the state advance. -/
theorem recommendation_guard (c : ConversationContext)
    (sr : StructuredResponse) (sessions : List SessionRow) :
    ((handleTurnV2 c sr sessions).recommendations.isSome = true →
      sr.nextState = "showing_recommendations" ∧
      truthyInt (mergeContext c sr.extractedData).childAge = true ∧
      (truthyList (mergeContext c sr.extractedData).preferredDays = true ∨
       truthyStr (mergeContext c sr.extractedData).preferredTimeOfDay =
         true)) ∧
    (extractedAgeInvalid sr.extractedData = false →
      (handleTurnV2 c sr sessions).persisted =
        some (sr.nextState, mergeContext c sr.extractedData) ∧
      (handleTurnV2 c sr sessions).responseNextState = sr.nextState) := by
  constructor
  · intro h
    unfold handleTurnV2 at h
    by_cases hv : extractedAgeInvalid sr.extractedData = true
    · rw [if_pos hv] at h
      simp at h
    · rw [if_neg hv] at h
      dsimp only at h
      split at h
      · next hc =>
        exact and_assoc.mp
          (by simpa [Bool.and_eq_true, Bool.or_eq_true, decide_eq_true_eq]
            using hc)
      · simp at h
  · intro hv
    unfold handleTurnV2
    rw [if_neg (by simp [hv])]
    exact ⟨rfl, rfl⟩

/-- Witness for C3: on a fully informed context the lookup precondition
holds and the suggested state is persisted with the merged context. -/
theorem recommendation_guard_witness :
    (srSuggest.nextState = "showing_recommendations" ∧
     truthyInt (mergeContext cComplete srSuggest.extractedData).childAge =
       true ∧
     (truthyList
        (mergeContext cComplete srSuggest.extractedData).preferredDays =
          true ∨
      truthyStr
        (mergeContext cComplete srSuggest.extractedData).preferredTimeOfDay =
          true)) ∧
    (handleTurnV2 cComplete srSuggest []).persisted =
      some (srSuggest.nextState,
        mergeContext cComplete srSuggest.extractedData) :=
  ⟨(recommendation_guard cComplete srSuggest []).1 (by decide),
   ((recommendation_guard cComplete srSuggest []).2 (by decide)).1⟩

/-- Counterexample to C3 as stated: with a context that has no child age
and no schedule axis at all, an externally suggested
`showing_recommendations` IS acted on — the conversation record is
updated to that state and the response echoes it (only the
recommendation fetch is skipped), so the state machine does advance to
`showing_recommendations` without the preconditions. -/
theorem recommendation_state_counterexample :
    cPrefs.childAge = none ∧ cPrefs.preferredDays = none ∧
    cPrefs.preferredTime = none ∧ cPrefs.preferredTimeOfDay = none ∧
    srSuggest.nextState = "showing_recommendations" ∧
    (handleTurnV2 cPrefs srSuggest []).persisted =
      some ("showing_recommendations", cPrefs) ∧
    (handleTurnV2 cPrefs srSuggest []).responseNextState =
      "showing_recommendations" ∧
    (handleTurnV2 cPrefs srSuggest []).recommendations = none := by decide

/-- C4, amended (invalid-age rejection): for every extracted `childAge`
that is non-null, nonzero and outside `[2,18]`, the variant 2 turn
returns the corrective message with `nextState` equal to the incoming
`currentState` and empty `extractedData`, performs no session lookup,
and persists nothing (so the invalid age never reaches the conversation
record).  The nonzero proviso is forced by the source: the check
`childAge && (childAge < 2 || childAge > 18)` treats an extracted `0` as
falsy, so `0` is neither rejected nor merged. -/
theorem invalid_age_rejection (c : ConversationContext)
    (sr : StructuredResponse) (sessions : List SessionRow) (a : Int)
    (ha : sr.extractedData.childAge = some a) (h0 : ¬(a = 0))
    (hout : a < 2 ∨ 18 < a) :
    handleTurnV2 c sr sessions =
      { persisted := none
        responseMessage := correctiveAgeMessage
        responseNextState := c.currentState
        responseExtractedData := emptyExtractedData
        recommendations := none } := by
  have hv : extractedAgeInvalid sr.extractedData = true := by
    simp [extractedAgeInvalid, truthyInt, ha, h0, hout]
  unfold handleTurnV2
  rw [if_pos hv]

/-- Witness for C4: extracted age 20 produces exactly the corrective
outcome. -/
theorem invalid_age_rejection_witness :
    handleTurnV2 cPrefs srAge20 [] =
      { persisted := none
        responseMessage := correctiveAgeMessage
        responseNextState := cPrefs.currentState
        responseExtractedData := emptyExtractedData
        recommendations := none } :=
  invalid_age_rejection cPrefs srAge20 [] 20 (by decide) (by decide)
    (by decide)

/-- Counterexample to C4 as stated: the extracted age `0` lies outside
`[2,18]`, yet the turn does not return the corrective message — the
response carries the suggested next state rather than the incoming one,
a session lookup IS performed (`recommendations = some []` on an empty
store), the turn persists, and the corrective message is not the one
returned. -/
theorem invalid_age_zero_counterexample :
    ((0 : Int) < 2 ∨ 18 < (0 : Int)) ∧
    srZeroAge.extractedData.childAge = some 0 ∧
    (handleTurnV2 cComplete srZeroAge []).responseNextState =
      "showing_recommendations" ∧
    ¬((handleTurnV2 cComplete srZeroAge []).responseNextState =
      cComplete.currentState) ∧
    (handleTurnV2 cComplete srZeroAge []).recommendations = some [] ∧
    ¬((handleTurnV2 cComplete srZeroAge []).persisted = none) ∧
    ¬((handleTurnV2 cComplete srZeroAge []).responseMessage =
      correctiveAgeMessage) := by decide

/-- C5, amended (no-erasure merge): in the variant 2 field-by-field
merge, a falsy extracted field (null, absent, empty string, zero) leaves
the stored value untouched and only a truthy extracted value overwrites,
so that merge never erases a known fact; the variant 1 spread merge,
however, preserves a stored field only when the extracted field is
ABSENT — a present field replaces the stored value even when it is an
explicit null, so the spread merge can erase a known fact. -/
theorem merge_no_erasure (c : ConversationContext) (e : ExtractedData)
    (c1 : ContextFields) (r : RawExtractedData) :
    (truthyStr e.childName = false →
      (mergeContext c e).childName = c.childName) ∧
    (truthyStr e.childName = true →
      (mergeContext c e).childName = e.childName) ∧
    (truthyInt e.childAge = false →
      (mergeContext c e).childAge = c.childAge) ∧
    (truthyInt e.childAge = true →
      (mergeContext c e).childAge = e.childAge) ∧
    (truthyList e.preferredDays = false →
      (mergeContext c e).preferredDays = c.preferredDays) ∧
    (truthyList e.preferredDays = true →
      (mergeContext c e).preferredDays = e.preferredDays) ∧
    (truthyStr e.preferredTime = false →
      (mergeContext c e).preferredTime = c.preferredTime) ∧
    (truthyStr e.preferredTime = true →
      (mergeContext c e).preferredTime = e.preferredTime) ∧
    (truthyStr e.preferredTimeOfDay = false →
      (mergeContext c e).preferredTimeOfDay = c.preferredTimeOfDay) ∧
    (truthyStr e.preferredTimeOfDay = true →
      (mergeContext c e).preferredTimeOfDay = e.preferredTimeOfDay) ∧
    (r.childName = none →
      (spreadMergeContext c1 r).childName = c1.childName) ∧
    (∀ v, r.childName = some v → (spreadMergeContext c1 r).childName = v) ∧
    (r.childAge = none →
      (spreadMergeContext c1 r).childAge = c1.childAge) ∧
    (∀ v, r.childAge = some v → (spreadMergeContext c1 r).childAge = v) ∧
    (r.preferredDays = none →
      (spreadMergeContext c1 r).preferredDays = c1.preferredDays) ∧
    (∀ v, r.preferredDays = some v →
      (spreadMergeContext c1 r).preferredDays = v) ∧
    (r.preferredTime = none →
      (spreadMergeContext c1 r).preferredTime = c1.preferredTime) ∧
    (∀ v, r.preferredTime = some v →
      (spreadMergeContext c1 r).preferredTime = v) ∧
    (r.preferredTimeOfDay = none →
      (spreadMergeContext c1 r).preferredTimeOfDay =
        c1.preferredTimeOfDay) ∧
    (∀ v, r.preferredTimeOfDay = some v →
      (spreadMergeContext c1 r).preferredTimeOfDay = v) ∧
    (r.preferredProgram = none →
      (spreadMergeContext c1 r).preferredProgram = c1.preferredProgram) ∧
    (∀ v, r.preferredProgram = some v →
      (spreadMergeContext c1 r).preferredProgram = v) := by
  refine ⟨?_, ?_, ?_, ?_, ?_, ?_, ?_, ?_, ?_, ?_, ?_, ?_, ?_, ?_, ?_, ?_,
    ?_, ?_, ?_, ?_, ?_, ?_⟩
  · intro h; simp [mergeContext, h]
  · intro h; simp [mergeContext, h]
  · intro h; simp [mergeContext, h]
  · intro h; simp [mergeContext, h]
  · intro h; simp [mergeContext, h]
  · intro h; simp [mergeContext, h]
  · intro h; simp [mergeContext, h]
  · intro h; simp [mergeContext, h]
  · intro h; simp [mergeContext, h]
  · intro h; simp [mergeContext, h]
  · intro h; simp [spreadMergeContext, spreadField, h]
  · intro v h; simp [spreadMergeContext, spreadField, h]
  · intro h; simp [spreadMergeContext, spreadField, h]
  · intro v h; simp [spreadMergeContext, spreadField, h]
  · intro h; simp [spreadMergeContext, spreadField, h]
  · intro v h; simp [spreadMergeContext, spreadField, h]
  · intro h; simp [spreadMergeContext, spreadField, h]
  · intro v h; simp [spreadMergeContext, spreadField, h]
  · intro h; simp [spreadMergeContext, spreadField, h]
  · intro v h; simp [spreadMergeContext, spreadField, h]
  · intro h; simp [spreadMergeContext, spreadField, h]
  · intro v h; simp [spreadMergeContext, spreadField, h]

/-- Witness for C5: a null extraction leaves a known name unchanged in
the field-by-field merge; a truthy extracted age overwrites; an absent
field is preserved by the spread merge; a present value replaces. -/
theorem merge_no_erasure_witness :
    (mergeContext cComplete emptyExtractedData).childName =
      cComplete.childName ∧
    (mergeContext cComplete { childAge := some 9 }).childAge = some 9 ∧
    (spreadMergeContext cNameKnown {}).childName = cNameKnown.childName ∧
    (spreadMergeContext cNameKnown { childAge := some (some 9) }).childAge =
      some 9 :=
  ⟨(merge_no_erasure cComplete emptyExtractedData cNameKnown {}).1
      (by decide),
   (merge_no_erasure cComplete { childAge := some 9 } cNameKnown {}).2.2.2.1
      (by decide),
   (merge_no_erasure cComplete emptyExtractedData cNameKnown
      {}).2.2.2.2.2.2.2.2.2.2.1 (by decide),
   (merge_no_erasure cComplete emptyExtractedData cNameKnown
      { childAge := some (some 9)
        }).2.2.2.2.2.2.2.2.2.2.2.2.2.1 (some 9) (by decide)⟩

/-- Counterexample to C5 as stated: in the variant 1 spread merge, an
extraction whose `childName` field is present but null clears a known
stored name — a null extracted field is NOT left untouched. -/
theorem spread_merge_erasure_counterexample :
    ((⟨some "Emma", none, none, none, none, none⟩ :
        ContextFields).childName = some "Emma") ∧
    ((⟨some none, none, none, none, none, none⟩ :
        RawExtractedData).childName = some none) ∧
    (spreadMergeContext ⟨some "Emma", none, none, none, none, none⟩
        ⟨some none, none, none, none, none, none⟩).childName = none := by
  decide

/-- C6, amended (child-info transition): in the cited state machine
(`unnamed/part_002`), the transition from `collecting_child_info` to
`collecting_preferences` occurs iff both `childName` and `childAge` are
truthy in THIS turn of extraction — a fact that arrived in an earlier
turn (present only in the merged context) does not enable it; the later
variant (`unnamed/part_003`, with the `fullContext` fallback) transitions
iff each fact is truthy in the extraction or in the merged context. -/
theorem child_info_transition (e : RuleExtractedData) (pt : Option String)
    (fc : ContextFields) :
    (determineNextState "collecting_child_info" e = "collecting_preferences" ↔
      truthyStr e.childName = true ∧ truthyInt e.childAge = true) ∧
    (determineNextStateCtx "collecting_child_info" e pt fc =
        "collecting_preferences" ↔
      ((truthyStr e.childName = true ∨ truthyStr fc.childName = true) ∧
       (truthyInt e.childAge = true ∨ truthyInt fc.childAge = true))) := by
  constructor
  · by_cases h1 : truthyStr e.childName = true <;>
    by_cases h2 : truthyInt e.childAge = true <;>
    simp [determineNextState, h1, h2]
  · by_cases h1 : truthyStr e.childName = true <;>
    by_cases h2 : truthyStr fc.childName = true <;>
    by_cases h3 : truthyInt e.childAge = true <;>
    by_cases h4 : truthyInt fc.childAge = true <;>
    simp [determineNextStateCtx, h1, h2, h3, h4]

/-- Counterexample to C6 as stated: the name is known from an earlier
turn (it is present in the merged context next to the newly extracted
age), yet `determineNextState` of the cited variant stays in
`collecting_child_info` because this turn of extraction lacks the
name — the transition is not decided on the merged context. -/
theorem child_info_transition_counterexample :
    (mergeRuleExtraction cNameKnown eAgeOnly).childName = some "Emma" ∧
    (mergeRuleExtraction cNameKnown eAgeOnly).childAge = some 7 ∧
    determineNextState "collecting_child_info" eAgeOnly =
      "collecting_child_info" ∧
    ¬(determineNextState "collecting_child_info" eAgeOnly =
      "collecting_preferences") := by decide

/-- C7 (half-open age matching): for a session whose program age range
parses as `[minAge, maxAge)` and which passes every other predicate of
the filter, the session is retained iff `minAge ≤ childAge < maxAge` —
`maxAge` itself excluded — in both copies of the filter. -/
theorem half_open_age_match (org : String) (age : Int) (days : List Int)
    (tod prog : Option String) (s : SessionRow) (p : ProgramRow) (ar : String)
    (mn mx : Nat)
    (hp : s.program = some p) (har : p.age_range = some ar) (hne : ¬(ar = ""))
    (hpar : parseAgeRange ar = some (mn, mx))
    (hcap : s.enrolled_count < s.capacity) (horg : p.organization_id = org)
    (hday : s.day_of_week ∈ days) (hkw : progKeywordOk prog p.name = true)
    (htod : timeOfDayOk tod s.start_time = true) :
    (sessionMatches org age days tod prog s = true ↔
      ((mn : Int) ≤ age ∧ age < (mx : Int))) ∧
    (sessionMatchesV2 org age (some days) tod s = true ↔
      ((mn : Int) ≤ age ∧ age < (mx : Int))) := by
  have hdayr : dayFilterRejects (some days) s.day_of_week = false := by
    simp [dayFilterRejects, hday]
  constructor
  · rw [sessionMatches_eq_true_iff]
    constructor
    · rintro ⟨p', ar', mn', mx', hp', har', _, hpar', _, _, hrange, _, _, _⟩
      rw [hp] at hp'
      simp only [Option.some.injEq] at hp'
      subst hp'
      rw [har] at har'
      simp only [Option.some.injEq] at har'
      subst har'
      rw [hpar] at hpar'
      simp only [Option.some.injEq, Prod.mk.injEq] at hpar'
      obtain ⟨rfl, rfl⟩ := hpar'
      exact hrange
    · intro hr
      exact ⟨p, ar, mn, mx, hp, har, hne, hpar, hcap, horg, hr, hday, hkw,
        htod⟩
  · rw [sessionMatchesV2_eq_true_iff]
    constructor
    · rintro ⟨p', ar', mn', mx', hp', har', _, hpar', _, _, hrange, _, _⟩
      rw [hp] at hp'
      simp only [Option.some.injEq] at hp'
      subst hp'
      rw [har] at har'
      simp only [Option.some.injEq] at har'
      subst har'
      rw [hpar] at hpar'
      simp only [Option.some.injEq, Prod.mk.injEq] at hpar'
      obtain ⟨rfl, rfl⟩ := hpar'
      exact hrange
    · intro hr
      exact ⟨p, ar, mn, mx, hp, har, hne, hpar, hcap, horg, hr, hdayr, htod⟩

/-- Witness for C7: the concrete `[4,6)` session matches ages 4 and 5
but not age 6. -/
theorem half_open_age_match_witness :
    sessionMatches "org1" 4 [3] none none wSession = true ∧
    sessionMatches "org1" 5 [3] none none wSession = true ∧
    ¬(sessionMatches "org1" 6 [3] none none wSession = true) := by
  have h4 := half_open_age_match "org1" 4 [3] none none wSession wProgram
    "[4,6)" 4 6 (by decide) (by decide) (by decide) (by decide) (by decide)
    (by decide) (by decide) (by decide) (by decide)
  have h5 := half_open_age_match "org1" 5 [3] none none wSession wProgram
    "[4,6)" 4 6 (by decide) (by decide) (by decide) (by decide) (by decide)
    (by decide) (by decide) (by decide) (by decide)
  have h6 := half_open_age_match "org1" 6 [3] none none wSession wProgram
    "[4,6)" 4 6 (by decide) (by decide) (by decide) (by decide) (by decide)
    (by decide) (by decide) (by decide) (by decide)
  exact ⟨h4.1.mpr (by decide), h5.1.mpr (by decide),
    fun hh => absurd (h6.1.mp hh) (by decide)⟩

/-- Unfolding of the requested-session loop over a cons cell: either the
head passes the request-identity checks and is classified, or the loop
continues with the tail. -/
lemma findRequestedSessionLoop_cons (org : String) (age : Int) (k : String)
    (days : List Int) (tod : Option String) (hd : SessionRow)
    (t : List SessionRow) :
    findRequestedSessionLoop org age k days tod (hd :: t) =
      if requestMatches org k days tod hd = true then
        (match hd.program with
         | some p => classifyRequested age hd p
         | none => findRequestedSessionLoop org age k days tod t)
      else findRequestedSessionLoop org age k days tod t := by
  rcases hprog : hd.program with _ | p
  · simp [findRequestedSessionLoop, requestMatches, hprog]
  · simp only [findRequestedSessionLoop, requestMatches, hprog]
    by_cases h1 : p.organization_id = org <;>
    by_cases h2 : containsSubstr (jsToLower p.name) (jsToLower k) = true <;>
    by_cases h3 : hd.day_of_week ∈ days <;>
    by_cases h4 : timeOfDayOk tod hd.start_time = true <;>
    simp [h1, h2, h3, h4]

/-- The requested-session loop classifies exactly the first row passing
the request-identity checks. -/
lemma findRequestedSessionLoop_eq_classify (org : String) (age : Int)
    (k : String) (days : List Int) (tod : Option String) :
    ∀ (sessions : List SessionRow) (s : SessionRow),
      sessions.find? (requestMatches org k days tod) = some s →
      ∀ p, s.program = some p →
      findRequestedSessionLoop org age k days tod sessions =
        classifyRequested age s p := by
  intro sessions
  induction sessions with
  | nil => intro s h; simp at h
  | cons hd t ih =>
    intro s h p hp
    by_cases hm : requestMatches org k days tod hd = true
    · rw [List.find?_cons_of_pos _ hm] at h
      obtain rfl : hd = s := by simpa using h
      rw [findRequestedSessionLoop_cons, if_pos hm]
      simp [hp]
    · rw [List.find?_cons_of_neg _ hm] at h
      rw [findRequestedSessionLoop_cons, if_neg hm]
      exact ih s h p hp

/-- Every classification reports the session as found, with its display
projection attached. -/
lemma classifyRequested_found (age : Int) (s : SessionRow) (p : ProgramRow) :
    (classifyRequested age s p).found = true ∧
    (classifyRequested age s p).session =
      some (mapSessionWithProgram s p) := by
  unfold classifyRequested
  split
  · exact ⟨rfl, rfl⟩
  · rcases har : p.age_range with _ | ar <;> simp only [har]
    · constructor <;> simp
    · rcases hpar : parseAgeRange ar with _ | ⟨mn, mx⟩ <;> simp only [hpar]
      · constructor <;> simp
      · split <;> (constructor <;> simp)

/-- Past its guard, `findRequestedSession` classifies the first row of
the store reply that passes the request-identity checks. -/
lemma findRequestedSession_eq_classify (org : String) (age : Int) (k : String)
    (days : List Int) (tod : Option String) (sessions : List SessionRow)
    (s : SessionRow) (p : ProgramRow)
    (hk : ¬(k = "")) (hdays : ¬(days = []))
    (hfind : sessions.find? (requestMatches org k days tod) = some s)
    (hp : s.program = some p) :
    findRequestedSession org age (some days) tod (some k) sessions =
      classifyRequested age s p := by
  unfold findRequestedSession
  rw [if_neg]
  · simp only [Option.getD_some]
    exact findRequestedSessionLoop_eq_classify org age k days tod sessions s
      hfind p hp
  · simp [truthyStr, daysFalsyOrEmpty, hk, List.length_eq_zero, hdays]

/-- C8 (issue tagging): when the specifically requested session exists —
the first stored row matching organization, program keyword, preferred
day, and time of day, for a truthy keyword and non-empty day list — the
check returns it as found with its display record rather than omitting
it, tagged `full` when its status is full or its enrolment has reached
capacity, tagged `wrong_age` when it has spare capacity but the child
age falls outside its parsed `[minAge, maxAge)` range, and untagged when
neither failure applies. -/
theorem requested_session_issue_tagging (org : String) (age : Int)
    (k : String) (days : List Int) (tod : Option String)
    (sessions : List SessionRow) (s : SessionRow) (p : ProgramRow)
    (hk : ¬(k = "")) (hdays : ¬(days = []))
    (hfind : sessions.find? (requestMatches org k days tod) = some s)
    (hp : s.program = some p) :
    (findRequestedSession org age (some days) tod (some k) sessions).found =
      true ∧
    (findRequestedSession org age (some days) tod (some k) sessions).session =
      some (mapSessionWithProgram s p) ∧
    ((s.status = "full" ∨ s.capacity ≤ s.enrolled_count) →
      (findRequestedSession org age (some days) tod (some k)
        sessions).issue = some "full") ∧
    (¬(s.status = "full" ∨ s.capacity ≤ s.enrolled_count) →
      ∀ ar mn mx, p.age_range = some ar → parseAgeRange ar = some (mn, mx) →
        (age < (mn : Int) ∨ (mx : Int) ≤ age) →
        (findRequestedSession org age (some days) tod (some k)
          sessions).issue = some "wrong_age") ∧
    (¬(s.status = "full" ∨ s.capacity ≤ s.enrolled_count) →
      ∀ ar mn mx, p.age_range = some ar → parseAgeRange ar = some (mn, mx) →
        ((mn : Int) ≤ age ∧ age < (mx : Int)) →
        (findRequestedSession org age (some days) tod (some k)
          sessions).issue = none) := by
  rw [findRequestedSession_eq_classify org age k days tod sessions s p hk
    hdays hfind hp]
  refine ⟨(classifyRequested_found age s p).1,
    (classifyRequested_found age s p).2, ?_, ?_, ?_⟩
  · intro hfull
    unfold classifyRequested
    rw [if_pos hfull]
  · intro hnot ar mn mx har hpar hout
    unfold classifyRequested
    rw [if_neg hnot]
    simp only [har, hpar]
    rw [if_pos hout]
  · intro hnot ar mn mx har hpar hin
    unfold classifyRequested
    rw [if_neg hnot]
    simp only [har, hpar]
    rw [if_neg (by omega)]

/-- Witness for C8: the concrete requested Wednesday soccer session is
reported as found and tagged `full` when at capacity, and tagged
`wrong_age` when the child age 7 falls outside its `[4,6)` range. -/
theorem requested_session_issue_tagging_witness :
    (findRequestedSession "org1" 7 (some [3]) none (some "soccer")
        [wFullSession]).found = true ∧
    (findRequestedSession "org1" 7 (some [3]) none (some "soccer")
        [wFullSession]).issue = some "full" ∧
    (findRequestedSession "org1" 7 (some [3]) none (some "soccer")
        [wSession]).issue = some "wrong_age" := by
  have hfull := requested_session_issue_tagging "org1" 7 "soccer" [3] none
    [wFullSession] wFullSession wProgram (by decide) (by decide) (by decide)
    (by decide)
  have hwrong := requested_session_issue_tagging "org1" 7 "soccer" [3] none
    [wSession] wSession wProgram (by decide) (by decide) (by decide)
    (by decide)
  exact ⟨hfull.1, hfull.2.2.1 (by decide),
    hwrong.2.2.2.1 (by decide) "[4,6)" 4 6 (by decide) (by decide)
      (by decide)⟩

/-- C9, amended (alternative finder): the implemented alternative search
has no relaxation strategies, similarity scores, or waitlist signal; it
returns (at most the first three of, in store order) the display records
of sessions whose program join is present, whose organization matches,
whose parsed age range contains the child, and whose program name
contains the requested keyword case-insensitively — and when no truthy
program keyword was given it returns no alternatives at all.  Day, start
time, and location play no part. -/
theorem alternative_finder_spec (org : String) (age : Int)
    (pp : Option String) (pd : Option (List Int))
    (sessions : List SessionRow) :
    (truthyStr pp = false →
      fetchAlternativeSessions org age pp pd sessions = []) ∧
    (∀ r ∈ fetchAlternativeSessions org age pp pd sessions,
      ∃ s p k, s ∈ sessions ∧ s.program = some p ∧
        r = mapSessionWithProgram s p ∧
        p.organization_id = org ∧
        pp = some k ∧ ¬(k = "") ∧
        containsSubstr (jsToLower p.name) (jsToLower k) = true ∧
        ∃ ar mn mx, p.age_range = some ar ∧ parseAgeRange ar = some (mn, mx) ∧
          (mn : Int) ≤ age ∧ age < (mx : Int)) := by
  constructor
  · intro hpp
    unfold fetchAlternativeSessions
    have hnil : (sessions.filterMap (fun s =>
        match s.program with
        | none => none
        | some p =>
          if altSessionPasses org age pp p then some (s, p) else none)) =
        ([] : List (SessionRow × ProgramRow)) := by
      rw [List.filterMap_eq_nil_iff]
      intro s _
      rcases hp : s.program with _ | p
      · rfl
      · dsimp only
        rw [if_neg]
        intro hpass
        rcases pp with _ | k
        · simp [altSessionPasses] at hpass
        · have hk : k = "" := by simpa [truthyStr] using hpp
          subst hk
          simp [altSessionPasses] at hpass
    rw [hnil]
    rfl
  · intro r hr
    unfold fetchAlternativeSessions at hr
    rcases List.mem_map.mp hr with ⟨sp, hsp, rfl⟩
    have hsp2 := List.mem_of_mem_take hsp
    rcases List.mem_filterMap.mp hsp2 with ⟨s, hs, hfs⟩
    rcases hp : s.program with _ | p
    · rw [hp] at hfs; simp at hfs
    · simp only [hp] at hfs
      by_cases hpass : altSessionPasses org age pp p = true
      · rw [if_pos hpass] at hfs
        obtain rfl : (s, p) = sp := by simpa using hfs
        simp only [altSessionPasses, Bool.and_eq_true, decide_eq_true_eq]
          at hpass
        obtain ⟨⟨horg, h2⟩, h3⟩ := hpass
        rcases har : p.age_range with _ | ar
        · rw [har] at h2; simp at h2
        · rw [har] at h2
          dsimp only at h2
          rcases hpar : parseAgeRange ar with _ | ⟨mn, mx⟩
          · rw [hpar] at h2; simp at h2
          · rw [hpar] at h2
            dsimp only at h2
            have hin : (mn : Int) ≤ age ∧ age < (mx : Int) := by
              simpa using h2
            rcases hppk : pp with _ | k
            · rw [hppk] at h3; simp at h3
            · rw [hppk] at h3
              dsimp only at h3
              by_cases hke : k = ""
              · rw [if_pos hke] at h3; simp at h3
              · rw [if_neg hke] at h3
                exact ⟨s, p, k, hs, hp, rfl, horg, rfl, hke, h3,
                  ar, mn, mx, har, hpar, hin.1, hin.2⟩
      · rw [if_neg hpass] at hfs
        simp at hfs

/-- Witness for C9: with no program keyword nothing is returned even
when a suitable session exists, and a returned alternative satisfies
the organization, keyword and age conditions. -/
theorem alternative_finder_spec_witness :
    fetchAlternativeSessions "org1" 7 none (some [3])
      [wAdjacentDaySession] = [] ∧
    (∃ s p k, s ∈ [wSession] ∧ s.program = some p ∧
      mapSessionWithProgram wSession wProgram = mapSessionWithProgram s p ∧
      p.organization_id = "org1" ∧
      (some "soccer" : Option String) = some k ∧ ¬(k = "") ∧
      containsSubstr (jsToLower p.name) (jsToLower k) = true ∧
      ∃ ar mn mx, p.age_range = some ar ∧ parseAgeRange ar = some (mn, mx) ∧
        (mn : Int) ≤ 4 ∧ (4 : Int) < mx) :=
  ⟨(alternative_finder_spec "org1" 7 none (some [3])
      [wAdjacentDaySession]).1 (by decide),
   (alternative_finder_spec "org1" 4 (some "soccer") (some [3])
      [wSession]).2 (mapSessionWithProgram wSession wProgram) (by decide)⟩

/-- Counterexample to C9 as stated: a session at the same location and
start time as the requested full session, on the adjacent day
(Thursday = Wednesday + 1), active, with spare capacity, in the same
organization and age-suitable for the child — the first relaxation
strategy of the claim (same location and time, day plus or minus one,
score 90) would have to contribute it — yet the implemented alternative
search returns the empty list for it, because its program name lacks
the requested keyword; no score or waitlist field exists in the result
at all. -/
theorem alternative_finder_counterexample :
    wAdjacentDaySession.status = "active" ∧
    wAdjacentDaySession.enrolled_count < wAdjacentDaySession.capacity ∧
    wAdjacentDaySession.location = wFullSession.location ∧
    wAdjacentDaySession.start_time = wFullSession.start_time ∧
    wAdjacentDaySession.day_of_week = wFullSession.day_of_week + 1 ∧
    wAdjacentDaySession.program = some wBasketballProgram ∧
    wBasketballProgram.organization_id = "org1" ∧
    parseAgeRange "[5,9)" = some (5, 9) ∧ (5 : Int) ≤ 7 ∧ (7 : Int) < 9 ∧
    fetchAlternativeSessions "org1" 7 (some "soccer") (some [3])
      [wAdjacentDaySession] = [] := by decide

/-- C10 (implicit guard of the requested-session checks): without both a
truthy program keyword and a non-empty preferred-day list, both
requested-session checks report no match against any store reply, and —
when the keyword is the missing part — the variant 3 recommendation
phase necessarily falls through to the ordinary Availability Filter
path (its unavailable-session branch is unreachable), so a full session
is never reported as the requested one unless a program was explicitly
named. -/
theorem requested_session_guard (org : String) (age : Int)
    (pd : Option (List Int)) (tod pp : Option String) (days2 : List Int)
    (sessions : List SessionRow)
    (h : truthyStr pp = false ∨ daysFalsyOrEmpty pd = true) :
    findRequestedSession org age pd tod pp sessions =
      ⟨false, none, none⟩ ∧
    checkForFullRequestedSession org age pd tod pp sessions =
      ⟨false, none⟩ ∧
    (truthyStr pp = false →
      ∃ recs, v3RecommendationPhase org age days2 tod pp sessions =
        RecPhase.normal recs) := by
  refine ⟨?_, ?_, ?_⟩
  · unfold findRequestedSession
    rw [if_pos]
    rcases h with h | h <;> simp [h]
  · unfold checkForFullRequestedSession
    rw [if_pos]
    rcases h with h | h <;> simp [h]
  · intro hpp
    unfold v3RecommendationPhase
    have h2 : findRequestedSession org age (some days2) tod pp sessions =
        ⟨false, none, none⟩ := by
      unfold findRequestedSession
      rw [if_pos]
      simp [hpp]
    rw [h2]
    simp only [Bool.false_and, Bool.false_eq_true, if_false]
    split <;> exact ⟨_, rfl⟩

/-- Witness for C10: with no program keyword, a full session matching
the preferred day and time is not reported as the requested session and
the phase answers through the normal path. -/
theorem requested_session_guard_witness :
    findRequestedSession "org1" 7 (some [3]) none none [wFullSession] =
      ⟨false, none, none⟩ ∧
    checkForFullRequestedSession "org1" 7 (some [3]) none none
      [wFullSession] = ⟨false, none⟩ ∧
    (∃ recs, v3RecommendationPhase "org1" 7 [3] none none [wFullSession] =
      RecPhase.normal recs) := by
  have h := requested_session_guard "org1" 7 (some [3]) none none [3]
    [wFullSession] (Or.inl (by decide))
  exact ⟨h.1, h.2.1, h.2.2 (by decide)⟩
